import Mathlib

/-!
Verification of the NexusSynth performance-regression detection core.

Shallow embedding of the Python sources under `.github/scripts/`:
* `performance_regression_detector.py` — the database-backed detector
  (`PerformanceDatabase`, `RegressionDetector`, `load_benchmark_results`, `main`);
* `regression_detector.py` — the split-sample fallback detector;
* `update_performance_baseline.py` — retention (`BaselineManager.cleanup_old_data`).

Python floats are modelled as `ℚ` (exact arithmetic over the same formulas);
ISO-8601 timestamp strings are kept as `String`, compared lexicographically
exactly as SQLite compares TEXT columns.  The scipy one-sample t-test is an
external numeric oracle; the analyzer is parameterised over it (`sig`), since
no verified property depends on the p-value itself.
-/

/-- `RegressionSeverity` from `performance_regression_detector.py`. -/
inductive RegressionSeverity where
  | none
  | minor
  | moderate
  | major
  | critical
deriving DecidableEq

/-- `PerformanceMetric` dataclass: one benchmark observation.
`environment_info` is kept as its JSON-serialised form. -/
structure PerformanceMetric where
  benchmark_name : String
  platform : String
  execution_time_ns : ℚ
  memory_usage : ℚ
  quality_score : ℚ
  timestamp : String
  commit_hash : String
  branch : String
  pr_number : Option Int
  environment_info : Option String
deriving DecidableEq

/-- `RegressionAlert` dataclass. -/
structure RegressionAlert where
  benchmark_name : String
  platform : String
  severity : RegressionSeverity
  current_value : ℚ
  baseline_value : ℚ
  change_percent : ℚ
  timestamp : String
  commit_hash : String
  statistical_significance : ℚ
  recommendation : String
deriving DecidableEq

/-- A row of the `regression_alerts` table: the alert plus the DB-side
`resolved` flag (default FALSE) and `created_at` (DEFAULT CURRENT_TIMESTAMP). -/
structure AlertRow where
  alert : RegressionAlert
  resolved : Bool
  created_at : String
deriving DecidableEq

/-- The SQLite database: `performance_metrics` and `regression_alerts`,
each as the list of rows in insertion (rowid) order. -/
structure PerformanceDatabase where
  performance_metrics : List PerformanceMetric
  regression_alerts : List AlertRow
deriving DecidableEq

/-- The one uncaught exception the analyzer can raise: Python's
`ZeroDivisionError` from the change-percent division. -/
inductive AnalyzeError where
  | zeroDivisionError
deriving DecidableEq

/-- `statistics.mean`; division by zero only ever reached under guards
that rule the empty list out. -/
def mean (xs : List ℚ) : ℚ := xs.sum / (xs.length : ℚ)

/-- Sample variance (the square of `statistics.stdev`, which uses `n - 1`);
for `n = 1` the source sets the stdev to `0` and this quotient is `0` too
(division by zero in `ℚ`).  Only its sign is ever consulted, and
`stdev > 0 ↔ variance > 0`. -/
def sampleVariance (xs : List ℚ) : ℚ :=
  (xs.map (fun x => (x - mean xs) ^ 2)).sum / ((xs.length : ℚ) - 1)

/-- `RegressionDetector.min_sample_size` (performance_regression_detector.py). -/
def minSampleSize : Nat := 5

namespace PerfDetector

/-- `RegressionDetector._calculate_severity` from
`performance_regression_detector.py` (thresholds dict: MINOR 5.0,
MODERATE 15.0, MAJOR 25.0, CRITICAL 50.0). -/
def calculateSeverity (change_percent : ℚ) : RegressionSeverity :=
  let abs_change := |change_percent|
  if change_percent ≤ 0 then .none
  else if abs_change ≥ 50 then .critical
  else if abs_change ≥ 25 then .major
  else if abs_change ≥ 15 then .moderate
  else if abs_change ≥ 5 then .minor
  else .none

/-- `RegressionDetector._generate_recommendation`.  The substring tests
`"synthesis" in name.lower()` / `"training" in name.lower()` are expressed
through `splitOn`. -/
def generateRecommendation (severity : RegressionSeverity)
    (change_percent : ℚ) (benchmark_name : String) : String :=
  let base : List String :=
    match severity with
    | .minor =>
        ["Monitor this benchmark in upcoming commits",
         "Consider profiling if regression persists",
         "Review recent algorithmic changes"]
    | .moderate =>
        ["Investigate recent code changes affecting this benchmark",
         "Run detailed profiling to identify bottlenecks",
         "Consider reverting recent performance-affecting commits"]
    | .major =>
        ["Immediate investigation required",
         "Profile the specific code paths in this benchmark",
         "Consider blocking deployment until resolved"]
    | .critical =>
        ["Critical performance degradation detected",
         "Block deployment immediately",
         "Emergency profiling and optimization required"]
    | .none => ["No specific recommendation"]
  let lower := benchmark_name.toLower
  let recs :=
    if (lower.splitOn "synthesis").length > 1 then
      base ++ ["Check WORLD vocoder parameter settings",
               "Verify HMM model loading performance"]
    else if (lower.splitOn "training").length > 1 then
      base ++ ["Review training data preprocessing pipeline",
               "Check memory allocation patterns in ML operations"]
    else base
  String.intercalate " • " recs

end PerfDetector

namespace SplitDetector

/-- `RegressionDetector._calculate_severity` from `regression_detector.py`
(the split-sample fallback detector): string tiers with thresholds
`>50`, `>30`, `>15`. -/
def calculateSeverity (percent_change : ℚ) : String :=
  let abs_change := |percent_change|
  if abs_change > 50 then "critical"
  else if abs_change > 30 then "high"
  else if abs_change > 15 then "medium"
  else "low"

end SplitDetector

/-- Modelled from the spec, §4.4 Severity Policy: the canonical mapping of a
change−percent magnitude to a tier (`< 5` none, `[5,15)` minor, `[15,25)`
moderate, `[25,50)` major, `≥ 50` critical).  Used only to compare the two
source detectors against the spec's single policy. -/
def severityPolicySpec (absChangePercent : ℚ) : RegressionSeverity :=
  if absChangePercent < 5 then .none
  else if absChangePercent < 15 then .minor
  else if absChangePercent < 25 then .moderate
  else if absChangePercent < 50 then .major
  else .critical

/-- SQLite compares TEXT columns bytewise; on the UTF-8/ASCII ISO-8601
timestamps this is exactly lexicographic character order, i.e. `String.lt`
(see `textLt_iff` below).  Stated on `toList` so that it computes. -/
def textLt (a b : String) : Bool := decide (a.toList < b.toList)

/-- Non-strict companion of `textLt`. -/
def textLe (a b : String) : Bool := decide (a.toList ≤ b.toList)

/-- `PerformanceDatabase.store_metrics`: plain `INSERT` of every record of the
batch, in order, with no uniqueness constraint and no validation. -/
def storeMetrics (db : PerformanceDatabase) (metrics : List PerformanceMetric) :
    PerformanceDatabase :=
  { db with performance_metrics := db.performance_metrics ++ metrics }

/-- `PerformanceDatabase.store_alert`: append one alert row; `resolved`
defaults to FALSE and `created_at` to the insertion time `now`. -/
def storeAlert (db : PerformanceDatabase) (alert : RegressionAlert) (now : String) :
    PerformanceDatabase :=
  { db with regression_alerts := db.regression_alerts ++ [⟨alert, false, now⟩] }

/-- The WHERE clause of `PerformanceDatabase.get_baseline_metrics`:
`benchmark_name = ? AND platform = ? AND timestamp > ? AND branch = 'main'`,
with `cutoff = (datetime.now() - timedelta(days=days_back)).isoformat()`. -/
def baselineMatch (benchmark_name platform cutoff : String)
    (m : PerformanceMetric) : Bool :=
  m.benchmark_name == benchmark_name && m.platform == platform &&
    textLt cutoff m.timestamp && m.branch == "main"

/-- `ORDER BY timestamp DESC`: row `a` may precede row `b` when
`b.timestamp ≤ a.timestamp`. -/
def newestFirst (a b : PerformanceMetric) : Prop :=
  textLe b.timestamp a.timestamp = true

instance : DecidableRel newestFirst :=
  fun a b => inferInstanceAs (Decidable (textLe b.timestamp a.timestamp = true))

/-- `PerformanceDatabase.get_baseline_metrics`: the matching rows of
`performance_metrics`, ordered newest-first (`ORDER BY timestamp DESC`). -/
def getBaselineMetrics (db : PerformanceDatabase)
    (benchmark_name platform cutoff : String) : List PerformanceMetric :=
  List.insertionSort newestFirst
    (db.performance_metrics.filter (baselineMatch benchmark_name platform cutoff))

/-- `BaselineManager.cleanup_old_data` (update_performance_baseline.py):
counts the rows with `timestamp < cutoff` (metrics) resp. `created_at <
cutoff` (alerts), deletes them when there is anything to delete, and reports
the two counts.  `cutoff = (datetime.now() - timedelta(days=retain_days)).isoformat()`. -/
def cleanupOldData (db : PerformanceDatabase) (cutoff_date : String) :
    PerformanceDatabase × Nat × Nat :=
  let old_metrics_count :=
    (db.performance_metrics.filter (fun m => textLt m.timestamp cutoff_date)).length
  let old_alerts_count :=
    (db.regression_alerts.filter (fun a => textLt a.created_at cutoff_date)).length
  if 0 < old_metrics_count ∨ 0 < old_alerts_count then
    (⟨db.performance_metrics.filter (fun m => !textLt m.timestamp cutoff_date),
      db.regression_alerts.filter (fun a => !textLt a.created_at cutoff_date)⟩,
     old_metrics_count, old_alerts_count)
  else
    (db, old_metrics_count, old_alerts_count)

/-- `RegressionDetector._analyze_single_metric`, given the baseline set the
database query returned.  `sig` is the scipy `ttest_1samp` p-value oracle
(`sig baseline_times current_time`); no verified property depends on its
value.  Python raises an uncaught `ZeroDivisionError` when the baseline mean
is zero; the source's branch `baseline_std > 0` is expressed through the
equivalent `sampleVariance > 0`. -/
def analyzeSingleMetric (sig : List ℚ → ℚ → ℚ)
    (baseline_metrics : List PerformanceMetric)
    (current_metric : PerformanceMetric) (commit_hash : String) :
    Except AnalyzeError (Option RegressionAlert) :=
  if baseline_metrics.length < minSampleSize then
    .ok Option.none
  else
    let baseline_times := baseline_metrics.map (fun m => m.execution_time_ns)
    let current_time := current_metric.execution_time_ns
    let baseline_mean := mean baseline_times
    if baseline_mean = 0 then
      .error .zeroDivisionError
    else
      let change_percent := ((current_time - baseline_mean) / baseline_mean) * 100
      let severity := PerfDetector.calculateSeverity change_percent
      if severity = RegressionSeverity.none then
        .ok Option.none
      else
        let statistical_significance :=
          if 0 < sampleVariance baseline_times then sig baseline_times current_time
          else 1
        .ok (Option.some
          { benchmark_name := current_metric.benchmark_name
            platform := current_metric.platform
            severity := severity
            current_value := current_time
            baseline_value := baseline_mean
            change_percent := change_percent
            timestamp := current_metric.timestamp
            commit_hash := commit_hash
            statistical_significance := statistical_significance
            recommendation :=
              PerfDetector.generateRecommendation severity change_percent
                current_metric.benchmark_name })

/-- `_analyze_single_metric` including its own baseline query
(`self.db.get_baseline_metrics(name, platform)` with the 30-day cutoff). -/
def analyzeSingleMetricDB (sig : List ℚ → ℚ → ℚ) (db : PerformanceDatabase)
    (current_metric : PerformanceMetric) (commit_hash cutoff : String) :
    Except AnalyzeError (Option RegressionAlert) :=
  analyzeSingleMetric sig
    (getBaselineMetrics db current_metric.benchmark_name current_metric.platform cutoff)
    current_metric commit_hash

/-- `RegressionDetector.analyze_current_metrics`: fold over the batch,
persisting and collecting each non-`none` alert; an exception from
`_analyze_single_metric` propagates and aborts the whole loop. -/
def analyzeCurrentMetrics (sig : List ℚ → ℚ → ℚ) (db : PerformanceDatabase)
    (current_metrics : List PerformanceMetric) (commit_hash cutoff now : String) :
    Except AnalyzeError (List RegressionAlert × PerformanceDatabase) :=
  match current_metrics with
  | [] => .ok ([], db)
  | metric :: rest =>
    match analyzeSingleMetricDB sig db metric commit_hash cutoff with
    | .error e => .error e
    | .ok alert? =>
      match alert? with
      | Option.some alert =>
        if alert.severity ≠ RegressionSeverity.none then
          match analyzeCurrentMetrics sig (storeAlert db alert now) rest
              commit_hash cutoff now with
          | .error e => .error e
          | .ok (alerts, db1) => .ok (alert :: alerts, db1)
        else
          analyzeCurrentMetrics sig db rest commit_hash cutoff now
      | Option.none =>
        analyzeCurrentMetrics sig db rest commit_hash cutoff now

/-- The analysis phase of `main` (performance_regression_detector.py):
`database.store_metrics(current_metrics)` first, then
`detector.analyze_current_metrics(current_metrics, commit_hash)`. -/
def mainPipeline (sig : List ℚ → ℚ → ℚ) (db : PerformanceDatabase)
    (current_metrics : List PerformanceMetric) (commit_hash cutoff now : String) :
    Except AnalyzeError (List RegressionAlert × PerformanceDatabase) :=
  analyzeCurrentMetrics sig (storeMetrics db current_metrics) current_metrics
    commit_hash cutoff now

/-- One entry of a benchmark-results JSON file, as consumed by
`load_benchmark_results`; `Option.none` models an absent key (for which
`benchmark.get(key, default)` supplies the default). -/
structure BenchmarkEntry where
  benchmark_name : Option String
  avg_execution_time_ns : Option ℚ
  avg_memory_usage : Option ℚ
  formant_preservation_score : Option ℚ
  benchmark_successful : Bool
  environment_info : Option String
deriving DecidableEq

/-- The per-entry conversion inside `load_benchmark_results`: skips entries
whose `benchmark_successful` is false, otherwise builds a `PerformanceMetric`
with `execution_time_ns = float(benchmark.get('avg_execution_time_ns', 0))` —
no positivity check anywhere. -/
def loadBenchmarkEntry (entry : BenchmarkEntry)
    (platform now commit_hash branch : String) (pr_number : Option Int) :
    Option PerformanceMetric :=
  if !entry.benchmark_successful then
    Option.none
  else
    Option.some
      { benchmark_name := entry.benchmark_name.getD "unknown"
        platform := platform
        execution_time_ns := entry.avg_execution_time_ns.getD 0
        memory_usage := entry.avg_memory_usage.getD 0
        quality_score := entry.formant_preservation_score.getD 0
        timestamp := now
        commit_hash := commit_hash
        branch := branch
        pr_number := pr_number
        environment_info := entry.environment_info }

/-- One record of the split-sample fallback detector's report
(`regression_detector.py`, the dict built in `_analyze_platform_regressions`).
The source stores the ms figures and the percent rounded for display
(`round(·, 3)` / `round(·, 2)`); the unrounded values are kept here — the
detection decision never looks at the rounded copies. -/
structure SplitRegressionData where
  benchmark : String
  platform : String
  baseline_time : ℚ
  current_time : ℚ
  regression_percent : ℚ
  sample_count_baseline : Nat
  sample_count_current : Nat
  severity : String
deriving DecidableEq

/-- The percent change `_analyze_platform_regressions` computes for one
benchmark group: the group's extracted timings are filtered to the strictly
positive ones, the first `⌊n/2⌋` form the baseline and the rest the current
set, and the change is `(mean current - mean baseline) / mean baseline * 100`. -/
def splitChangePercent (benchmark_data : List ℚ) : ℚ :=
  let timing_data := benchmark_data.filter (fun t => decide (0 < t))
  let mid_point := timing_data.length / 2
  let baseline_avg := mean (timing_data.take mid_point)
  let current_avg := mean (timing_data.drop mid_point)
  ((current_avg - baseline_avg) / baseline_avg) * 100

/-- The body of `RegressionDetector._analyze_platform_regressions`
(regression_detector.py) for one `(platform, benchmark)` group.
`benchmark_data` is the list of values `_safe_get_numeric` extracted per item
(`0.0` for an absent/non-numeric field).  Returns the report record together
with the branch taken: `true` = appended to `regressions`
(`percent_change > 0`), `false` = appended to `improvements`. -/
def analyzeBenchmarkTimings (benchmark : String) (platform : String)
    (benchmark_data : List ℚ) (threshold : ℚ) :
    Option (SplitRegressionData × Bool) :=
  if benchmark_data.length < 2 then
    Option.none
  else
    let timing_data := benchmark_data.filter (fun t => decide (0 < t))
    if timing_data.length < 2 then
      Option.none
    else
      let mid_point := timing_data.length / 2
      let baseline_times :=
        if 0 < mid_point then timing_data.take mid_point else timing_data.dropLast
      let current_times :=
        if 0 < mid_point then timing_data.drop mid_point
        else timing_data.drop (timing_data.length - 1)
      let baseline_avg := mean baseline_times
      let current_avg := mean current_times
      if 0 < baseline_avg then
        let percent_change := ((current_avg - baseline_avg) / baseline_avg) * 100
        if threshold < |percent_change| then
          Option.some
            ({ benchmark := benchmark
               platform := platform
               baseline_time := baseline_avg / 1000000
               current_time := current_avg / 1000000
               regression_percent := percent_change
               sample_count_baseline := baseline_times.length
               sample_count_current := current_times.length
               severity := SplitDetector.calculateSeverity percent_change },
             decide (0 < percent_change))
        else
          Option.none
      else
        Option.none

/-- Does an analyzer result carry an alert?  (`.ok Option.none` is the
"no alert" outcome, `.error` an aborted analysis.) -/
def producesAlert (r : Except AnalyzeError (Option RegressionAlert)) : Bool :=
  match r with
  | .ok (Option.some _) => true
  | _ => false

/-- Severity of the alert carried by an analyzer result, when there is one. -/
def alertSeverity (r : Except AnalyzeError (Option RegressionAlert)) :
    Option RegressionSeverity :=
  match r with
  | .ok (Option.some a) => Option.some a.severity
  | _ => Option.none

instance : IsTotal PerformanceMetric newestFirst :=
  ⟨fun a b => by
    simp only [newestFirst, textLe, decide_eq_true_eq]
    exact le_total b.timestamp.toList a.timestamp.toList⟩

instance : IsTrans PerformanceMetric newestFirst :=
  ⟨fun a b c hab hbc => by
    simp only [newestFirst, textLe, decide_eq_true_eq] at *
    exact le_trans hbc hab⟩

/-- A p-value oracle instance used for concrete evaluations; any function
works, since no verified property depends on the p-value. -/
def sigZero : List ℚ → ℚ → ℚ := fun _ _ => 0

/-- Concrete-record builder for the evaluations below: a metric with the
given key, execution time, timestamp and branch (remaining fields fixed). -/
def mkMetric (name platform : String) (t : ℚ) (ts branch : String) :
    PerformanceMetric :=
  { benchmark_name := name
    platform := platform
    execution_time_ns := t
    memory_usage := 0
    quality_score := 1
    timestamp := ts
    commit_hash := "c0ffee"
    branch := branch
    pr_number := Option.none
    environment_info := Option.none }

/-- Baseline of five records whose execution times are all `-100`
(mean `-100`): reachable store content, since nothing validates
`execution_time_ns` before insertion. -/
def baselineNegative : List PerformanceMetric :=
  [mkMetric "A" "P" (-100) "2026-01-01T00:00:00" "main",
   mkMetric "A" "P" (-100) "2026-01-02T00:00:00" "main",
   mkMetric "A" "P" (-100) "2026-01-03T00:00:00" "main",
   mkMetric "A" "P" (-100) "2026-01-04T00:00:00" "main",
   mkMetric "A" "P" (-100) "2026-01-05T00:00:00" "main"]

/-- A current record at `-200`, i.e. below the baseline mean `-100`. -/
def currentNegative : PerformanceMetric :=
  mkMetric "A" "P" (-200) "2026-01-06T00:00:00" "main"

/-- Baseline of only four records (below `minSampleSize = 5`), mean `100`. -/
def baselineFour : List PerformanceMetric :=
  [mkMetric "A" "P" 100 "2026-01-01T00:00:00" "main",
   mkMetric "A" "P" 100 "2026-01-02T00:00:00" "main",
   mkMetric "A" "P" 100 "2026-01-03T00:00:00" "main",
   mkMetric "A" "P" 100 "2026-01-04T00:00:00" "main"]

/-- A current record at `300`, a 200% change against mean `100`. -/
def currentTriple : PerformanceMetric :=
  mkMetric "A" "P" 300 "2026-01-06T00:00:00" "main"

/-- Baseline of five records at `100` (mean `100`). -/
def baselineFive : List PerformanceMetric :=
  [mkMetric "A" "P" 100 "2026-01-01T00:00:00" "main",
   mkMetric "A" "P" 100 "2026-01-02T00:00:00" "main",
   mkMetric "A" "P" 100 "2026-01-03T00:00:00" "main",
   mkMetric "A" "P" 100 "2026-01-04T00:00:00" "main",
   mkMetric "A" "P" 100 "2026-01-05T00:00:00" "main"]

/-- A current record at `90`: a 10% improvement against mean `100`. -/
def currentNinety : PerformanceMetric :=
  mkMetric "A" "P" 90 "2026-01-06T00:00:00" "main"

/-- A store holding five stable-branch records with execution time `0` for
key `("A", "P")` — insertable content, since nothing validates
`execution_time_ns` (see C9). -/
def dbZeroBaseline : PerformanceDatabase :=
  { performance_metrics :=
      [mkMetric "A" "P" 0 "2026-01-01T00:00:00" "main",
       mkMetric "A" "P" 0 "2026-01-02T00:00:00" "main",
       mkMetric "A" "P" 0 "2026-01-03T00:00:00" "main",
       mkMetric "A" "P" 0 "2026-01-04T00:00:00" "main",
       mkMetric "A" "P" 0 "2026-01-05T00:00:00" "main"]
    regression_alerts := [] }

/-- A current batch of two records: one for the zero-mean key `("A", "P")`,
one for an untouched key `("B", "P")`. -/
def batchZero : List PerformanceMetric :=
  [mkMetric "A" "P" 100 "2026-01-06T00:00:00" "main",
   mkMetric "B" "P" 100 "2026-01-06T00:00:00" "main"]

/-- The empty store. -/
def emptyDb : PerformanceDatabase := { performance_metrics := [], regression_alerts := [] }

/-- A single current record on the stable branch, timestamped inside the
lookback window — the batch `main` inserts before analyzing (C5). -/
def currentSelf : PerformanceMetric :=
  mkMetric "A" "P" 100 "2026-01-02T00:00:00" "main"

/-- Store for the C6 counterexample: one record timestamped exactly at the
cutoff `referenceTime - lookbackWindow`, and one record timestamped after
the reference time. -/
def dbWindow : PerformanceDatabase :=
  { performance_metrics :=
      [mkMetric "A" "P" 100 "2026-01-01T00:00:00" "main",
       mkMetric "A" "P" 100 "2027-06-01T00:00:00" "main"]
    regression_alerts := [] }

/-- The record of `dbWindow` with a timestamp after the reference time. -/
def recFuture : PerformanceMetric := mkMetric "A" "P" 100 "2027-06-01T00:00:00" "main"

/-- The record of `dbWindow` timestamped exactly at the cutoff. -/
def recBoundary : PerformanceMetric := mkMetric "A" "P" 100 "2026-01-01T00:00:00" "main"

/-- Store for the C6 witness: its only record for key `("A", "P")` — the
most recent one — sits on a feature branch. -/
def dbFeatureOnly : PerformanceDatabase :=
  { performance_metrics := [mkMetric "A" "P" 100 "2026-01-20T00:00:00" "feature/x"]
    regression_alerts := [] }

/-- Store for the C8 witness: two metric rows (one old, one new) and one
alert row (old). -/
def dbRetention : PerformanceDatabase :=
  { performance_metrics :=
      [mkMetric "A" "P" 100 "2024-01-01T00:00:00" "main",
       mkMetric "A" "P" 100 "2026-01-05T00:00:00" "main"]
    regression_alerts :=
      [{ alert :=
          { benchmark_name := "A"
            platform := "P"
            severity := .minor
            current_value := 110
            baseline_value := 100
            change_percent := 10
            timestamp := "2024-01-01T00:00:00"
            commit_hash := "c0ffee"
            statistical_significance := 1
            recommendation := "r" }
         resolved := false
         created_at := "2024-01-01 00:00:00" }] }

/-- A successful benchmark-results entry whose `avg_execution_time_ns` key is
absent, so `load_benchmark_results` defaults the execution time to `0`. -/
def entryZeroTime : BenchmarkEntry :=
  { benchmark_name := Option.some "A"
    avg_execution_time_ns := Option.none
    avg_memory_usage := Option.some 5
    formant_preservation_score := Option.some 1
    benchmark_successful := true
    environment_info := Option.none }

/-- The metric `load_benchmark_results` builds from `entryZeroTime`: its
execution time defaults to `0`. -/
def metricZeroTime : PerformanceMetric :=
  { benchmark_name := "A"
    platform := "P"
    execution_time_ns := 0
    memory_usage := 5
    quality_score := 1
    timestamp := "2026-01-06T00:00:00"
    commit_hash := "c"
    branch := "main"
    pr_number := Option.none
    environment_info := Option.none }

/-- The report record the split-sample detector produces for the timings
`[100, 200]` at threshold 10: baseline half `[100]`, current half `[200]`,
a +100% change. -/
def splitSampleData : SplitRegressionData :=
  { benchmark := "B"
    platform := "P"
    baseline_time := 100 / 1000000
    current_time := 200 / 1000000
    regression_percent := 100
    sample_count_baseline := 1
    sample_count_current := 1
    severity := "critical" }

/-! ### Helper lemmas -/

theorem textLt_iff (a b : String) : textLt a b = true ↔ a < b := by
  simp [textLt, String.lt_iff_toList_lt]

theorem textLe_iff (a b : String) : textLe a b = true ↔ a ≤ b := by
  simp [textLe, String.le_iff_toList_le]

theorem calcSeverity_nonpos {cp : ℚ} (h : cp ≤ 0) :
    PerfDetector.calculateSeverity cp = .none := by
  simp [PerfDetector.calculateSeverity, h]

/-- The database-backed detector's severity function implements the spec's
canonical table on every positive change percent. -/
theorem perfDetector_matches_policy (x : ℚ) (hx : 0 < x) :
    PerfDetector.calculateSeverity x = severityPolicySpec x := by
  have habs : |x| = x := abs_of_pos hx
  unfold PerfDetector.calculateSeverity severityPolicySpec
  simp only [habs]
  split_ifs <;> first | rfl | linarith

/-! ### Claim theorems -/

/-- C1: the canonical policy (x < 5 none, [5,15) minor, [15,25) moderate,
[25,50) major, ≥ 50 critical) is implemented by the primary detector, but
the fallback detector in `regression_detector.py` classifies the same
positive change percent differently: at a 10% degradation the canonical
policy (and the primary detector) give `minor`, while the fallback detector
returns the tier `"low"` from its own scale (`>50` critical, `>30` high,
`>15` medium, else low) — the detectors do not agree. -/
theorem severity_policies_disagree :
    PerfDetector.calculateSeverity 10 = .minor
    ∧ severityPolicySpec 10 = .minor
    ∧ SplitDetector.calculateSeverity 10 = "low"
    ∧ SplitDetector.calculateSeverity 50 = "high"
    ∧ PerfDetector.calculateSeverity 50 = .critical := by
  refine ⟨?_, ?_, ?_, ?_, ?_⟩ <;>
    norm_num [PerfDetector.calculateSeverity, severityPolicySpec,
      SplitDetector.calculateSeverity]

/-- C2 (amended): whenever the baseline mean is positive, a current record
whose execution time is at most the baseline mean produces no alert,
whatever the significance oracle says. -/
theorem no_alert_on_improvement (sig : List ℚ → ℚ → ℚ)
    (baseline : List PerformanceMetric) (current : PerformanceMetric)
    (commit : String)
    (hpos : 0 < mean (baseline.map (fun m => m.execution_time_ns)))
    (hle : current.execution_time_ns
            ≤ mean (baseline.map (fun m => m.execution_time_ns))) :
    analyzeSingleMetric sig baseline current commit = .ok Option.none := by
  unfold analyzeSingleMetric
  by_cases hlen : baseline.length < minSampleSize
  · simp [hlen]
  · rw [if_neg hlen, if_neg (ne_of_gt hpos)]
    have hdiv : (current.execution_time_ns
        - mean (baseline.map (fun m => m.execution_time_ns)))
        / mean (baseline.map (fun m => m.execution_time_ns)) ≤ 0 :=
      div_nonpos_of_nonpos_of_nonneg (sub_nonpos.mpr hle) hpos.le
    have hcp : (current.execution_time_ns
        - mean (baseline.map (fun m => m.execution_time_ns)))
        / mean (baseline.map (fun m => m.execution_time_ns)) * 100 ≤ 0 := by
      nlinarith
    simp [calcSeverity_nonpos hcp]

/-- C2 witness: five baseline records at 100 (mean 100 > 0) and a current
record at 90 ≤ 100 produce no alert. -/
theorem no_alert_on_improvement_witness :
    analyzeSingleMetric sigZero baselineFive currentNinety "c" = .ok Option.none :=
  no_alert_on_improvement sigZero baselineFive currentNinety "c"
    (by norm_num [baselineFive, mkMetric, mean])
    (by norm_num [baselineFive, currentNinety, mkMetric, mean])

/-- C2 counterexample: with a (storable, unvalidated) baseline of five
records at −100, the mean is −100 and a current record at −200 — below the
baseline mean, i.e. an improvement in the claim's sense — yields a
critical-severity alert: the sign gate, as claimed for every baseline set,
fails when the baseline mean is negative. -/
theorem sign_gate_fails_on_negative_mean :
    currentNegative.execution_time_ns
      ≤ mean (baselineNegative.map (fun m => m.execution_time_ns))
    ∧ producesAlert
        (analyzeSingleMetric sigZero baselineNegative currentNegative "c") = true
    ∧ alertSeverity
        (analyzeSingleMetric sigZero baselineNegative currentNegative "c")
        = Option.some .critical := by
  refine ⟨?_, ?_, ?_⟩
  · norm_num [mean, baselineNegative, currentNegative, mkMetric]
  all_goals
    norm_num [producesAlert, alertSeverity, analyzeSingleMetric, mean,
      sampleVariance, baselineNegative, currentNegative, mkMetric, minSampleSize,
      PerfDetector.calculateSeverity, sigZero]
    rw [if_neg (by decide)]

/-- C3: with fewer than `minSampleSize` (= 5) baseline records the analyzer
returns no alert at all, whatever the current record holds. -/
theorem no_alert_below_min_sample (sig : List ℚ → ℚ → ℚ)
    (baseline : List PerformanceMetric) (current : PerformanceMetric)
    (commit : String) (h : baseline.length < minSampleSize) :
    analyzeSingleMetric sig baseline current commit = .ok Option.none := by
  unfold analyzeSingleMetric
  simp [h]

/-- C3 witness: exactly four baseline records (mean 100) and a current
record at 300 — a 200% change — still produce no alert. -/
theorem no_alert_below_min_sample_witness :
    baselineFour.length < minSampleSize
    ∧ (currentTriple.execution_time_ns
        - mean (baselineFour.map (fun m => m.execution_time_ns)))
        / mean (baselineFour.map (fun m => m.execution_time_ns)) * 100 = 200
    ∧ analyzeSingleMetric sigZero baselineFour currentTriple "c" = .ok Option.none :=
  ⟨by decide,
   by norm_num [baselineFour, currentTriple, mkMetric, mean],
   no_alert_below_min_sample sigZero baselineFour currentTriple "c" (by decide)⟩

/-- C4: five stored records with execution time `0` (insertable, since
nothing validates times) give a zero baseline mean, and analyzing a batch
against them raises Python's `ZeroDivisionError`, which
`analyze_current_metrics` does not catch: the whole batch — including the
second, healthy record — is aborted instead of the one record being skipped. -/
theorem zero_mean_crashes_batch :
    analyzeCurrentMetrics sigZero dbZeroBaseline batchZero "c"
      "2025-12-31T00:00:00" "2026-01-06T00:00:00" = .error .zeroDivisionError := by
  have hb : getBaselineMetrics dbZeroBaseline "A" "P" "2025-12-31T00:00:00"
      = [mkMetric "A" "P" 0 "2026-01-05T00:00:00" "main",
         mkMetric "A" "P" 0 "2026-01-04T00:00:00" "main",
         mkMetric "A" "P" 0 "2026-01-03T00:00:00" "main",
         mkMetric "A" "P" 0 "2026-01-02T00:00:00" "main",
         mkMetric "A" "P" 0 "2026-01-01T00:00:00" "main"] := by decide
  norm_num [analyzeCurrentMetrics, batchZero, analyzeSingleMetricDB, mkMetric,
    hb, analyzeSingleMetric, mean, minSampleSize]

/-- C5: `main` stores the current batch before analyzing it, and the baseline
query has no upper timestamp bound and no batch exclusion, so a stable-branch
record inserted by the batch — here the current record itself — is its own
entire baseline set: look-ahead bias. -/
theorem current_batch_pollutes_baseline :
    getBaselineMetrics (storeMetrics emptyDb [currentSelf]) "A" "P"
        "2026-01-01T00:00:00" = [currentSelf]
    ∧ currentSelf ∈ getBaselineMetrics (storeMetrics emptyDb [currentSelf])
        "A" "P" "2026-01-01T00:00:00"
    ∧ mainPipeline sigZero emptyDb [currentSelf] "c" "2026-01-01T00:00:00"
        "2026-01-06T00:00:00"
      = analyzeCurrentMetrics sigZero (storeMetrics emptyDb [currentSelf])
          [currentSelf] "c" "2026-01-01T00:00:00" "2026-01-06T00:00:00" :=
  ⟨by decide, by decide, rfl⟩

/-- C6 (amended): the baseline query returns exactly the branch-`main`
records for the key whose timestamp is strictly greater than the cutoff
`referenceTime − lookbackWindow` — with no upper bound at the reference
time — ordered newest-first, and the empty list (never an error) when
nothing matches; a record whose branch is not `"main"` (e.g. `"feature/x"`)
is never returned. -/
theorem getBaselineMetrics_spec (db : PerformanceDatabase) (b p c : String) :
    (getBaselineMetrics db b p c).Perm
        (db.performance_metrics.filter (baselineMatch b p c))
    ∧ (getBaselineMetrics db b p c).Pairwise
        (fun a₁ a₂ => a₂.timestamp ≤ a₁.timestamp)
    ∧ (∀ m, m ∈ getBaselineMetrics db b p c ↔
        (m ∈ db.performance_metrics ∧ m.benchmark_name = b ∧ m.platform = p
          ∧ c < m.timestamp ∧ m.branch = "main"))
    ∧ (db.performance_metrics.filter (baselineMatch b p c) = [] →
        getBaselineMetrics db b p c = []) := by
  refine ⟨List.perm_insertionSort _ _, ?_, ?_, ?_⟩
  · exact (List.sorted_insertionSort newestFirst _).imp
      (fun hab => (textLe_iff _ _).mp hab)
  · intro m
    unfold getBaselineMetrics
    rw [(List.perm_insertionSort newestFirst _).mem_iff]
    simp only [List.mem_filter, baselineMatch, Bool.and_eq_true, beq_iff_eq,
      textLt_iff]
    tauto
  · intro h
    rw [getBaselineMetrics, h]
    rfl

/-- C6 witness: a store whose only record for the key — the most recent
one — sits on branch `feature/x` yields the empty baseline (branch
isolation, empty result rather than an error). -/
theorem getBaselineMetrics_spec_witness :
    getBaselineMetrics dbFeatureOnly "A" "P" "2026-01-01T00:00:00" = [] :=
  (getBaselineMetrics_spec dbFeatureOnly "A" "P" "2026-01-01T00:00:00").2.2.2
    (by decide)

/-- C6 counterexample: with cutoff `referenceTime − lookbackWindow` =
2026-01-01 and reference time 2026-01-31, the query returns the record
timestamped 2027-06-01 — outside `[referenceTime − lookback, referenceTime)`
— and omits the record timestamped exactly at the cutoff, which that
interval contains. -/
theorem baseline_window_counterexample :
    getBaselineMetrics dbWindow "A" "P" "2026-01-01T00:00:00" = [recFuture]
    ∧ ¬ recFuture.timestamp < "2026-01-31T00:00:00"
    ∧ "2026-01-01T00:00:00" ≤ recBoundary.timestamp
    ∧ recBoundary.benchmark_name = "A" ∧ recBoundary.platform = "P"
    ∧ recBoundary.branch = "main" := by
  refine ⟨by decide, ?_, ?_, rfl, rfl, rfl⟩
  · simp only [recFuture, mkMetric, String.lt_iff_toList_lt]
    decide
  · simp only [recBoundary, mkMetric, String.le_iff_toList_le]
    decide

/-- C7: inserting the same batch twice appends it twice (no implicit
dedup), and every matching record then occurs in the baseline-query result
with the store's original multiplicity plus twice its multiplicity in the
batch — both copies are returned, none silently dropped. -/
theorem store_twice_returns_both_copies (db : PerformanceDatabase)
    (batch : List PerformanceMetric) (b p c : String) (m : PerformanceMetric) :
    (storeMetrics (storeMetrics db batch) batch).performance_metrics
      = db.performance_metrics ++ batch ++ batch
    ∧ (getBaselineMetrics (storeMetrics (storeMetrics db batch) batch) b p c).count m
      = (db.performance_metrics.filter (baselineMatch b p c)).count m
        + 2 * (batch.filter (baselineMatch b p c)).count m := by
  constructor
  · rfl
  · unfold getBaselineMetrics
    rw [(List.perm_insertionSort newestFirst _).count_eq]
    show ((db.performance_metrics ++ batch ++ batch).filter
        (baselineMatch b p c)).count m = _
    simp only [List.filter_append, List.count_append]
    ring

/-- C8: `cleanup_old_data` removes from both tables exactly the rows older
than the horizon cutoff (`timestamp` for metrics, `created_at` for alerts)
and reports the removed-row counts; when every row is older than the cutoff
(a zero-day horizon against past data) everything is removed, and when no
row is older (an unbounded horizon) nothing is removed and the store is
returned unchanged.  `textLt x cutoff = true` is SQLite's `x < cutoff`
(see `textLt_iff`). -/
theorem cleanupOldData_spec (db : PerformanceDatabase) (cutoff : String) :
    (cleanupOldData db cutoff).1.performance_metrics
      = db.performance_metrics.filter (fun m => !textLt m.timestamp cutoff)
    ∧ (cleanupOldData db cutoff).1.regression_alerts
      = db.regression_alerts.filter (fun a => !textLt a.created_at cutoff)
    ∧ (cleanupOldData db cutoff).2.1
      = (db.performance_metrics.filter (fun m => textLt m.timestamp cutoff)).length
    ∧ (cleanupOldData db cutoff).2.2
      = (db.regression_alerts.filter (fun a => textLt a.created_at cutoff)).length
    ∧ db.performance_metrics.length
      = (cleanupOldData db cutoff).1.performance_metrics.length
        + (cleanupOldData db cutoff).2.1
    ∧ db.regression_alerts.length
      = (cleanupOldData db cutoff).1.regression_alerts.length
        + (cleanupOldData db cutoff).2.2
    ∧ ((∀ m ∈ db.performance_metrics, textLt m.timestamp cutoff = true) →
        (∀ a ∈ db.regression_alerts, textLt a.created_at cutoff = true) →
        (cleanupOldData db cutoff).1.performance_metrics = []
          ∧ (cleanupOldData db cutoff).1.regression_alerts = [])
    ∧ ((∀ m ∈ db.performance_metrics, textLt m.timestamp cutoff = false) →
        (∀ a ∈ db.regression_alerts, textLt a.created_at cutoff = false) →
        cleanupOldData db cutoff = (db, 0, 0)) := by
  have hmain : cleanupOldData db cutoff
      = (⟨db.performance_metrics.filter (fun m => !textLt m.timestamp cutoff),
          db.regression_alerts.filter (fun a => !textLt a.created_at cutoff)⟩,
         (db.performance_metrics.filter (fun m => textLt m.timestamp cutoff)).length,
         (db.regression_alerts.filter (fun a => textLt a.created_at cutoff)).length) := by
    unfold cleanupOldData
    by_cases h :
        0 < (db.performance_metrics.filter
              (fun m => textLt m.timestamp cutoff)).length
        ∨ 0 < (db.regression_alerts.filter
              (fun a => textLt a.created_at cutoff)).length
    · simp only [if_pos h]
    · rw [if_neg h]
      push_neg at h
      obtain ⟨h1, h2⟩ := h
      have p1 : db.performance_metrics.filter
          (fun m => textLt m.timestamp cutoff) = [] :=
        List.length_eq_zero.mp (Nat.le_zero.mp h1)
      have p2 : db.regression_alerts.filter
          (fun a => textLt a.created_at cutoff) = [] :=
        List.length_eq_zero.mp (Nat.le_zero.mp h2)
      have q1 := List.filter_eq_nil_iff.mp p1
      have q2 := List.filter_eq_nil_iff.mp p2
      have r1 : db.performance_metrics.filter
          (fun m => !textLt m.timestamp cutoff) = db.performance_metrics :=
        List.filter_eq_self.mpr (fun a ha => by simp_all)
      have r2 : db.regression_alerts.filter
          (fun a => !textLt a.created_at cutoff) = db.regression_alerts :=
        List.filter_eq_self.mpr (fun a ha => by simp_all)
      rw [p1, p2, r1, r2]
  refine ⟨by rw [hmain], by rw [hmain], by rw [hmain], by rw [hmain],
    ?_, ?_, ?_, ?_⟩
  · rw [hmain]
    rw [add_comm]
    exact List.length_eq_length_filter_add _
  · rw [hmain]
    rw [add_comm]
    exact List.length_eq_length_filter_add _
  · intro hm ha
    rw [hmain]
    constructor
    · exact List.filter_eq_nil_iff.mpr (fun a haa => by simp [hm a haa])
    · exact List.filter_eq_nil_iff.mpr (fun a haa => by simp [ha a haa])
  · intro hm ha
    rw [hmain]
    have p1 : db.performance_metrics.filter
        (fun m => textLt m.timestamp cutoff) = [] :=
      List.filter_eq_nil_iff.mpr (fun a haa => by simp [hm a haa])
    have p2 : db.regression_alerts.filter
        (fun a => textLt a.created_at cutoff) = [] :=
      List.filter_eq_nil_iff.mpr (fun a haa => by simp [ha a haa])
    have r1 : db.performance_metrics.filter
        (fun m => !textLt m.timestamp cutoff) = db.performance_metrics :=
      List.filter_eq_self.mpr (fun a haa => by simp [hm a haa])
    have r2 : db.regression_alerts.filter
        (fun a => !textLt a.created_at cutoff) = db.regression_alerts :=
      List.filter_eq_self.mpr (fun a haa => by simp [ha a haa])
    rw [p1, p2, r1, r2]
    rfl

/-- C8 witness: on a store with one old and one recent metric row and one
old alert row — pruning with a cutoff beyond every timestamp (horizon 0)
empties both tables, and pruning with a cutoff before every timestamp
(unbounded horizon) removes zero rows and leaves the store unchanged. -/
theorem cleanupOldData_spec_witness :
    ((cleanupOldData dbRetention "2027-01-01T00:00:00").1.performance_metrics = []
      ∧ (cleanupOldData dbRetention "2027-01-01T00:00:00").1.regression_alerts = [])
    ∧ cleanupOldData dbRetention "2000-01-01T00:00:00" = (dbRetention, 0, 0) :=
  ⟨(cleanupOldData_spec dbRetention "2027-01-01T00:00:00").2.2.2.2.2.2.1
      (by decide) (by decide),
   (cleanupOldData_spec dbRetention "2000-01-01T00:00:00").2.2.2.2.2.2.2
      (by decide) (by decide)⟩

/-- C9: an entry missing `avg_execution_time_ns` is loaded as a record with
execution time `0` — an invalid value by the spec and by the code's own
`validate_database_integrity`, which flags stored rows with
`execution_time_ns <= 0` — and `store_metrics` persists it unchanged:
no rejection, no warning, no drop before persistence. -/
theorem invalid_record_persisted :
    loadBenchmarkEntry entryZeroTime "P" "2026-01-06T00:00:00" "c" "main"
        Option.none = Option.some metricZeroTime
    ∧ metricZeroTime.execution_time_ns ≤ 0
    ∧ (storeMetrics emptyDb [metricZeroTime]).performance_metrics
        = [metricZeroTime] :=
  ⟨rfl, by norm_num [metricZeroTime], rfl⟩

/-- C10: the split-sample fallback detector evaluates a (platform,
benchmark) group only when it holds at least two strictly positive timing
samples; the first `⌊n/2⌋` positive samples in arrival order are the
baseline and the rest the current set; and a regression (`flag = true`) or
improvement (`flag = false`) is recorded exactly in the strict-threshold
case — a change whose magnitude equals the threshold reports nothing. -/
theorem splitDetector_group_spec (b p : String) (data : List ℚ) (thr : ℚ) :
    ((data.filter (fun t => decide (0 < t))).length < 2 →
      analyzeBenchmarkTimings b p data thr = Option.none)
    ∧ (∀ r flag, analyzeBenchmarkTimings b p data thr = Option.some (r, flag) →
        r.sample_count_baseline = (data.filter (fun t => decide (0 < t))).length / 2
        ∧ r.sample_count_current
            = (data.filter (fun t => decide (0 < t))).length
              - (data.filter (fun t => decide (0 < t))).length / 2
        ∧ r.baseline_time
            = mean ((data.filter (fun t => decide (0 < t))).take
                ((data.filter (fun t => decide (0 < t))).length / 2)) / 1000000
        ∧ r.current_time
            = mean ((data.filter (fun t => decide (0 < t))).drop
                ((data.filter (fun t => decide (0 < t))).length / 2)) / 1000000
        ∧ r.regression_percent = splitChangePercent data
        ∧ thr < |r.regression_percent|
        ∧ flag = decide (0 < r.regression_percent))
    ∧ (|splitChangePercent data| = thr →
        analyzeBenchmarkTimings b p data thr = Option.none) := by
  refine ⟨?_, ?_, ?_⟩
  · intro hlt
    by_cases hd : data.length < 2
    · simp [analyzeBenchmarkTimings, hd]
    · simp [analyzeBenchmarkTimings, hd, hlt]
  · intro r flag h
    simp only [analyzeBenchmarkTimings] at h
    by_cases hd : data.length < 2
    · rw [if_pos hd] at h
      exact absurd h (by simp)
    rw [if_neg hd] at h
    by_cases h2 : (data.filter (fun t => decide (0 < t))).length < 2
    · rw [if_pos h2] at h
      exact absurd h (by simp)
    rw [if_neg h2] at h
    have hmid : 0 < (data.filter (fun t => decide (0 < t))).length / 2 := by omega
    rw [if_pos hmid, if_pos hmid] at h
    by_cases hpos : 0 < mean ((data.filter (fun t => decide (0 < t))).take
        ((data.filter (fun t => decide (0 < t))).length / 2))
    · rw [if_pos hpos] at h
      by_cases hthr : thr
          < |(mean ((data.filter (fun t => decide (0 < t))).drop
                ((data.filter (fun t => decide (0 < t))).length / 2))
              - mean ((data.filter (fun t => decide (0 < t))).take
                ((data.filter (fun t => decide (0 < t))).length / 2)))
              / mean ((data.filter (fun t => decide (0 < t))).take
                ((data.filter (fun t => decide (0 < t))).length / 2)) * 100|
      · rw [if_pos hthr] at h
        have hinj := Option.some.inj h
        have hr := congrArg Prod.fst hinj
        have hflag := congrArg Prod.snd hinj
        simp only at hr hflag
        subst hr
        subst hflag
        have hscp : splitChangePercent data
            = (mean ((data.filter (fun t => decide (0 < t))).drop
                  ((data.filter (fun t => decide (0 < t))).length / 2))
                - mean ((data.filter (fun t => decide (0 < t))).take
                  ((data.filter (fun t => decide (0 < t))).length / 2)))
                / mean ((data.filter (fun t => decide (0 < t))).take
                  ((data.filter (fun t => decide (0 < t))).length / 2)) * 100 := rfl
        refine ⟨?_, ?_, rfl, rfl, hscp.symm, ?_, rfl⟩
        · simp [List.length_take]
          omega
        · simp [List.length_drop]
        · exact hthr
      · rw [if_neg hthr] at h
        exact absurd h (by simp)
    · rw [if_neg hpos] at h
      exact absurd h (by simp)
  · intro heq
    by_cases hd : data.length < 2
    · simp [analyzeBenchmarkTimings, hd]
    by_cases h2 : (data.filter (fun t => decide (0 < t))).length < 2
    · simp [analyzeBenchmarkTimings, hd, h2]
    have hmid : 0 < (data.filter (fun t => decide (0 < t))).length / 2 := by omega
    have hnthr : ¬ thr
        < |(mean ((data.filter (fun t => decide (0 < t))).drop
              ((data.filter (fun t => decide (0 < t))).length / 2))
            - mean ((data.filter (fun t => decide (0 < t))).take
              ((data.filter (fun t => decide (0 < t))).length / 2)))
            / mean ((data.filter (fun t => decide (0 < t))).take
              ((data.filter (fun t => decide (0 < t))).length / 2)) * 100| := by
      have : splitChangePercent data
          = (mean ((data.filter (fun t => decide (0 < t))).drop
                ((data.filter (fun t => decide (0 < t))).length / 2))
              - mean ((data.filter (fun t => decide (0 < t))).take
                ((data.filter (fun t => decide (0 < t))).length / 2)))
              / mean ((data.filter (fun t => decide (0 < t))).take
                ((data.filter (fun t => decide (0 < t))).length / 2)) * 100 := rfl
      rw [← this, heq]
      exact lt_irrefl thr
    simp only [analyzeBenchmarkTimings]
    rw [if_neg hd, if_neg h2, if_pos hmid, if_pos hmid]
    by_cases hpos : 0 < mean ((data.filter (fun t => decide (0 < t))).take
        ((data.filter (fun t => decide (0 < t))).length / 2))
    · rw [if_pos hpos, if_neg hnthr]
    · rw [if_neg hpos]

/-- C10 witness: `[0, 5]` has only one strictly positive sample — nothing is
reported; `[100, 110]` at threshold 10 is exactly a 10% change — nothing is
reported; `[100, 200]` at threshold 10 splits into baseline `[100]` and
current `[200]`, a +100% change strictly over the threshold, reported as a
regression. -/
theorem splitDetector_group_spec_witness :
    analyzeBenchmarkTimings "B" "P" [0, 5] 10 = Option.none
    ∧ analyzeBenchmarkTimings "B" "P" [100, 110] 10 = Option.none
    ∧ (splitSampleData.regression_percent = splitChangePercent [100, 200]
        ∧ 10 < |splitSampleData.regression_percent|
        ∧ splitSampleData.sample_count_baseline = 1
        ∧ splitSampleData.sample_count_current = 1) :=
  ⟨(splitDetector_group_spec "B" "P" [0, 5] 10).1 (by norm_num),
   (splitDetector_group_spec "B" "P" [100, 110] 10).2.2
     (by norm_num [splitChangePercent, mean]),
   (fun h => ⟨h.2.2.2.2.1, h.2.2.2.2.2.1, h.1, h.2.1⟩)
     ((splitDetector_group_spec "B" "P" [100, 200] 10).2.1 splitSampleData true
       (by norm_num [analyzeBenchmarkTimings, splitSampleData, mean,
         SplitDetector.calculateSeverity]))⟩
